import Mathlib

set_option maxHeartbeats 1000000

/-
Verification of the compile-database reconciliation engine in
src/src/catkin_workspace.ts (class CatkinWorkspace).  The definitions below
are a shallow embedding of the TypeScript source: JavaScript strings are
Lean strings manipulated through explicit character-list helpers, the
JavaScript value undefined is modelled as the value none of Option String,
JavaScript Map objects are association lists with unique keys, and external
compiler invocations are abstract functions passed in as parameters.
-/

/- Character-list helpers modelling the JavaScript string operations used by
the source (String.prototype.startsWith, split, slice, indexOf, replace,
endsWith) on ASCII data. -/

def charsLead : List Char → List Char → Bool
  | [], _ => true
  | _ :: _, [] => false
  | p :: ps, c :: cs => p == c && charsLead ps cs

/-- Models the JavaScript expression s.startsWith(pat). -/
def strStarts (s pat : String) : Bool := charsLead pat.data s.data

/-- Models the JavaScript expression s.endsWith(pat). -/
def strEnds (s pat : String) : Bool := charsLead pat.data.reverse s.data.reverse

def splitCharAux (sep : Char) : List Char → List Char → List String
  | [], acc => [String.mk acc.reverse]
  | c :: cs, acc =>
    if c = sep then String.mk acc.reverse :: splitCharAux sep cs []
    else splitCharAux sep cs (c :: acc)

/-- Models the JavaScript expression s.split(sep) for a one-character
separator: line 233 splits the command on a space and line 340 splits the
compiler path on a slash. -/
def splitChar (sep : Char) (s : String) : List String := splitCharAux sep s.data []

def charsContains (needle : List Char) : List Char → Bool
  | [] => needle.isEmpty
  | c :: cs => charsLead needle (c :: cs) || charsContains needle cs

/-- Models the JavaScript test s.indexOf(pat) >= 0 (line 345). -/
def strContains (s pat : String) : Bool := charsContains pat.data s.data

/-- Models the JavaScript expression s.slice(n) for a nonnegative n. -/
def strDrop (s : String) (n : Nat) : String := String.mk (s.data.drop n)

/-- Models the JavaScript expression s.replace of every backslash by the
empty string (line 285). -/
def stripBackslashes (s : String) : String :=
  String.mk (s.data.filter (fun c => c != '\\'))

/-- Models lines 340 and 341: the last slash-separated component of the
compiler path. -/
def basename (s : String) : String := (splitChar '/' s).getLastD ""

example : strStarts "-isystem=/x" "-I" = false := by decide
example : strStarts "-I/a" "-I" = true := by decide
example : splitChar ' ' "g++ -I/a b" = ["g++", "-I/a", "b"] := by decide
example : strContains "x-ccache-y" "ccache" = true := by decide
example : strContains "nvcc" "ccache" = false := by decide
example : basename "/usr/bin/g++" = "g++" := by decide
example : strDrop "-isystem=/x" 9 = "/x" := by decide
example : stripBackslashes "A\\B" = "AB" := by decide

/- ===== Compiler-Defaults Resolver (lines 337-413) ===== -/

/-- One of the three resolver procedures of the source:
parseCompilerDefaultsNvcc (gpu), parseCompilerDefaultsCcache (wrapper), and
parseCompilerDefaultsCpp (generic). -/
inductive ResolverStrategy
  | gpu
  | wrapper
  | generic
deriving DecidableEq

/-- Control flow of parseCompilerDefaults, lines 343-349, as the list of
resolver procedures the method body invokes for a given compiler path, in
invocation order.  The source writes two separate if statements: the test
for the exact basename nvcc (line 343) and, independently, an if/else
chain testing whether the basename contains ccache (line 345). -/
def classifyStrategies (compiler : String) : List ResolverStrategy :=
  let compiler_name := basename compiler
  (if compiler_name = "nvcc" then [ResolverStrategy.gpu] else []) ++
  (if strContains compiler_name "ccache" then [ResolverStrategy.wrapper]
   else [ResolverStrategy.generic])

/-- Lines 337-352 and 385-392.  The two external compiler invocations
(parseCompilerDefaultsCpp, lines 354-383, and parseCompilerDefaultsNvcc,
lines 394-413) shell out to the compiler and parse its output; they are
abstracted as the parameters cppD and nvccD giving, for a compiler path,
the list of default include paths its invocation yields.  The method first
clears default_system_include_paths and the resolvers append to it, so the
returned list is exactly what the invoked resolvers pushed.  The ccache
resolver (lines 385-392) returns without pushing anything when no further
arguments remain, and otherwise re-enters parseCompilerDefaults (which
clears the list again) with the first remaining argument as the compiler. -/
def parseCompilerDefaults (cppD nvccD : String → List String) :
    String → List String → List String
  | compiler, [] =>
    let compiler_name := basename compiler
    let fromNvcc := if compiler_name = "nvcc" then nvccD compiler else []
    if strContains compiler_name "ccache" then fromNvcc
    else fromNvcc ++ cppD compiler
  | compiler, a :: rest =>
    let compiler_name := basename compiler
    let fromNvcc := if compiler_name = "nvcc" then nvccD compiler else []
    if strContains compiler_name "ccache" then parseCompilerDefaults cppD nvccD a rest
    else fromNvcc ++ cppD compiler

/- ===== Invocation parsing: getSourceFileConfiguration (lines 232-322) ===== -/

/-- A JavaScript string-or-undefined value: none models undefined. -/
abbrev JSStr := Option String

/-- Lines 310-322, the base used for one workspace folder: the folder path,
a slash if it does not already end in one, then src. -/
def wsBase (root : String) : String :=
  (if strEnds root "/" then root else root ++ "/") ++ "src"

/-- Lines 310-322, isWorkspacePath.  The loop body evaluates
path.startsWith(base); when path is undefined this throws a TypeError,
modelled as Except.error.  With zero workspace folders the loop body never
runs and the method returns false even for undefined. -/
def isWorkspacePath (roots : List String) (p : JSStr) : Except Unit Bool :=
  match roots with
  | [] => Except.ok false
  | _ :: _ =>
    match p with
    | none => Except.error ()
    | some s => Except.ok (roots.any (fun r => strStarts s (wsBase r)))

/-- Mutable locals of the option-scanning loop of
getSourceFileConfiguration together with the two instance fields it
touches: includePaths and defines are the locals of lines 236-237, browse
models this.system_include_browse_paths, and newSystemPathFound models the
local new_system_path_found of line 246. -/
structure ParseState where
  includePaths : List JSStr
  defines : List String
  browse : List JSStr
  newSystemPathFound : Bool
deriving DecidableEq

/-- The shared body of the three include branches (lines 250-283): push the
path onto includePaths, then, unless it is a workspace path, append it to
system_include_browse_paths when not already present and raise the
new-system-path flag. -/
def addIncludePath (roots : List String) (st : ParseState) (p : JSStr) :
    Except Unit ParseState :=
  match isWorkspacePath roots p with
  | Except.error e => Except.error e
  | Except.ok ws =>
    if !ws then
      if st.browse.contains p then
        Except.ok { st with includePaths := st.includePaths ++ [p] }
      else
        Except.ok { st with includePaths := st.includePaths ++ [p],
                            browse := st.browse ++ [p], newSystemPathFound := true }
    else Except.ok { st with includePaths := st.includePaths ++ [p] }

/-- The loop of lines 247-289 over the argument tokens after the compiler.
The two-token -isystem branch (lines 261-272) increments the index and
reads args[i]; when no token follows, that read yields undefined (none),
which is pushed onto includePaths before the workspace test runs. -/
def scanArgs (roots : List String) : List String → ParseState → Except Unit ParseState
  | [], st => Except.ok st
  | opt :: rest, st =>
    if strStarts opt "-I" then
      (addIncludePath roots st (some (strDrop opt 2))).bind
        (fun st1 => scanArgs roots rest st1)
    else if opt = "-isystem" then
      match rest with
      | [] =>
        (addIncludePath roots st none).bind
          (fun st1 => scanArgs roots [] st1)
      | pathTok :: rest2 =>
        (addIncludePath roots st (some pathTok)).bind
          (fun st1 => scanArgs roots rest2 st1)
    else if strStarts opt "-isystem=" then
      (addIncludePath roots st (some (strDrop opt 9))).bind
        (fun st1 => scanArgs roots rest st1)
    else if strStarts opt "-D" then
      scanArgs roots rest
        { st with defines := st.defines ++ [stripBackslashes (strDrop opt 2)] }
    else scanArgs roots rest st

/-- The flag record built at lines 300-306, restricted to the fields the
method derives itself (standard and intelliSenseMode are configuration
pass-through). -/
structure ParsedConfig where
  includePath : List JSStr
  defines : List String
  compilerPath : String
deriving DecidableEq

/-- Observable outcome of one getSourceFileConfiguration call: the returned
record, the final system_include_browse_paths, whether the coalesced
system-paths signal fired (line 290), the final
default_system_include_paths, and whether line 240 recomputed them. -/
structure SFCOutcome where
  config : ParsedConfig
  browse : List JSStr
  newSystemPathFound : Bool
  defaults : List String
  recomputed : Bool
deriving DecidableEq

/-- Lines 232-308.  The command is split on spaces; token zero is the
compiler; when the cached default_system_include_paths list is empty the
defaults are recomputed through parseCompilerDefaults with the remaining
tokens as arguments (lines 239-241); the remaining tokens are scanned for
include and define flags; finally the cached defaults are appended after
all explicit include paths (lines 294-296). -/
def getSourceFileConfiguration (cppD nvccD : String → List String)
    (roots : List String) (browse0 : List JSStr) (defaults0 : List String)
    (command : String) : Except Unit SFCOutcome :=
  let args := splitChar ' ' command
  let compiler := args.headD ""
  let rest := args.tail
  let recomputed := defaults0.length == 0
  let defaults :=
    if defaults0.length == 0 then parseCompilerDefaults cppD nvccD compiler rest
    else defaults0
  match scanArgs roots rest
      { includePaths := [], defines := [], browse := browse0, newSystemPathFound := false } with
  | Except.error e => Except.error e
  | Except.ok st =>
    Except.ok
      { config :=
          { includePath := st.includePaths ++ defaults.map some,
            defines := st.defines,
            compilerPath := compiler },
        browse := st.browse,
        newSystemPathFound := st.newSystemPathFound,
        defaults := defaults,
        recomputed := recomputed }

/-- Abstract resolver yielding no paths, used where a concrete value for
the external compiler invocation is needed. -/
def noDefaults : String → List String := fun _ => []

example :
    getSourceFileConfiguration noDefaults noDefaults ["/ws"] [] ["/opt/toolchain/include"]
      "/usr/bin/g++ -I/ws/src/a/include -isystem /usr/include -DDEBUG=1 a.cpp" =
    Except.ok
      { config :=
          { includePath := [some "/ws/src/a/include", some "/usr/include",
                            some "/opt/toolchain/include"],
            defines := ["DEBUG=1"],
            compilerPath := "/usr/bin/g++" },
        browse := [some "/usr/include"],
        newSystemPathFound := true,
        defaults := ["/opt/toolchain/include"],
        recomputed := false } := rfl

/- ===== Compile-Database Store (lines 415-446) and workspace state ===== -/

/-- One raw record of a compile-commands database as the JavaScript runtime
sees it.  JavaScript compares these records at line 435 with a strict
inequality, which for objects is identity of allocation: gen numbers the
jsonfile.readFile call that parsed the record and idx its position in the
parsed array, so two records are one object exactly when both reads and
both positions coincide.  file and command carry the record payload. -/
structure JSRec where
  gen : Nat
  idx : Nat
  file : String
  command : String
deriving DecidableEq

/-- Position-indexed helper for readFileRecs. -/
def readFileRecsFrom (gen : Nat) : Nat → List (String × String) → List JSRec
  | _, [] => []
  | i, e :: rest =>
    { gen := gen, idx := i, file := e.1, command := e.2 } ::
      readFileRecsFrom gen (i + 1) rest

/-- Lines 429 and 432-433: jsonfile.readFile parses the database contents
into an array of fresh record objects, identified by the generation number
of the read. -/
def readFileRecs (gen : Nat) (contents : List (String × String)) : List JSRec :=
  readFileRecsFrom gen 0 contents

/-- A JavaScript Map as an association list with unique keys: get returns
the value at a key. -/
def mapGet {α : Type} (m : List (String × α)) (k : String) : Option α :=
  match m with
  | [] => none
  | e :: rest => if e.1 = k then some e.2 else mapGet rest k

/-- Map.set: replace in place when the key is present, append otherwise. -/
def mapSet {α : Type} (m : List (String × α)) (k : String) (v : α) :
    List (String × α) :=
  match m with
  | [] => [(k, v)]
  | e :: rest => if e.1 = k then (k, v) :: rest else e :: mapSet rest k v

/-- Map.delete: remove the entry at a key. -/
def mapDelete {α : Type} (m : List (String × α)) (k : String) :
    List (String × α) :=
  match m with
  | [] => []
  | e :: rest => if e.1 = k then mapDelete rest k else e :: mapDelete rest k

/-- The CatkinWorkspace instance fields the verified methods touch:
the three maps of lines 16-19, the two path lists of lines 22-23, the
ignore_missing_db flag of line 26, and a counter of
build_commands_changed.dispatch calls standing for the signal of line 36. -/
structure WorkspaceModel where
  compile_commands : List (String × List JSRec)
  file_to_command : List (String × JSRec)
  file_to_compile_commands : List (String × String)
  system_include_browse_paths : List JSStr
  default_system_include_paths : List String
  ignore_missing_db : Bool
  signals : Nat
deriving DecidableEq

/-- A freshly constructed workspace (lines 16-26: empty maps and lists,
ignore_missing_db false). -/
def emptyWorkspace : WorkspaceModel :=
  { compile_commands := [], file_to_command := [], file_to_compile_commands := [],
    system_include_browse_paths := [], default_system_include_paths := [],
    ignore_missing_db := false, signals := 0 }

/-- Lines 419-424: the loop over the entries of file_to_compile_commands
that, for every entry whose value is the vanished database file, deletes
that source file from both maps.  The loop walks the entry snapshot taken
at entry while the maps shrink. -/
def removeDbRecords (db_file : String) :
    List (String × String) → WorkspaceModel → WorkspaceModel
  | [], st => st
  | e :: rest, st =>
    if e.2 = db_file then
      removeDbRecords db_file rest
        { st with
          file_to_command := mapDelete st.file_to_command e.1,
          file_to_compile_commands := mapDelete st.file_to_compile_commands e.1 }
    else removeDbRecords db_file rest st

/-- Lines 432-440: the pass over the parsed records.  A record is written
into the projection exactly when the stored record for its source file is
not the identical object, in which case the change flag is raised and the
origin map is updated. -/
def mergeRecs (db_file : String) :
    List JSRec → WorkspaceModel → Bool → WorkspaceModel × Bool
  | [], st, change => (st, change)
  | cmd :: rest, st, change =>
    if mapGet st.file_to_command cmd.file = some cmd then
      mergeRecs db_file rest st change
    else
      mergeRecs db_file rest
        { st with
          file_to_command := mapSet st.file_to_command cmd.file cmd,
          file_to_compile_commands := mapSet st.file_to_compile_commands cmd.file db_file }
        true

/-- Lines 415-446, updateDatabase.  onDisk is none when fs.existsSync is
false; otherwise it carries the parsed file contents together with the
generation number of this read.  In the missing-file branch the records
owned by the file are removed, the build-commands signal is dispatched
unconditionally and the method returns true.  Otherwise the parsed array
is stored, the records are merged, and the signal is dispatched only when
the pass flagged a change. -/
def updateDatabase (st : WorkspaceModel) (db_file : String)
    (onDisk : Option (Nat × List (String × String))) : WorkspaceModel × Bool :=
  match onDisk with
  | none =>
    let st1 := removeDbRecords db_file st.file_to_compile_commands st
    ({ st1 with signals := st1.signals + 1 }, true)
  | some (gen, contents) =>
    let recs := readFileRecs gen contents
    let st1 := { st with compile_commands := mapSet st.compile_commands db_file recs }
    let merged := mergeRecs db_file recs st1 false
    (if merged.2 then { merged.1 with signals := merged.1.signals + 1 } else merged.1,
     merged.2)

/-- Lines 69-81 of reload: every cache collection is cleared and the
build-commands signal is dispatched once.  reload never assigns
ignore_missing_db, so the flag keeps its value. -/
def reloadClearCaches (st : WorkspaceModel) : WorkspaceModel :=
  { st with
    compile_commands := [], file_to_command := [], file_to_compile_commands := [],
    system_include_browse_paths := [], default_system_include_paths := [],
    signals := st.signals + 1 }

/-- Line 497: the missing-database interaction runs only when no database
was found and the instance has not recorded an ignore choice. -/
def missingDbPromptShown (st : WorkspaceModel) (db_found : Bool) : Bool :=
  !db_found && !st.ignore_missing_db

/-- Lines 512-513 and 547-548: choosing the ignore option sets
ignore_missing_db. -/
def applyIgnoreChoice (st : WorkspaceModel) : WorkspaceModel :=
  { st with ignore_missing_db := true }

/- ===== Package Registry and dependency traversal (lines 200-230) ===== -/

/-- The package record shape the traversal consumes: a unique name and the
dependees list populated by buildDependencyGraph. -/
structure Pkg where
  name : String
  dependees : List String
deriving DecidableEq

/-- Line 324-326: this.packages.get(name) over the package map, modelled as
lookup in the package list by name. -/
def getPackage (pkgs : List Pkg) (n : String) : Option Pkg :=
  pkgs.find? (fun p => p.name == n)

/-- The loop of lines 210-228, instrumented: besides the returned Boolean
the model records the names passed to the visit callback in call order and
the final seen-set (checked_pkgs, as a list in insertion-reversed order).
fuel bounds the number of loop iterations; the wrapper passes a bound
that the loop can never exhaust. -/
def iterDepAux (pkgs : List Pkg) (visit : Pkg → Bool) :
    Nat → List String → List String → Bool × List String × List String
  | 0, checked, _ => (false, [], checked)
  | _ + 1, checked, [] => (false, [], checked)
  | fuel + 1, checked, dep_name :: rest =>
    if checked.contains dep_name then iterDepAux pkgs visit fuel checked rest
    else
      let checked1 := dep_name :: checked
      match getPackage pkgs dep_name with
      | none => iterDepAux pkgs visit fuel checked1 rest
      | some dep =>
        if visit dep then (true, [dep.name], checked1)
        else
          let r := iterDepAux pkgs visit fuel checked1 (rest ++ dep.dependees)
          (r.1, dep.name :: r.2.1, r.2.2)

/-- Lines 200-230, iterateDependentPackages: breadth-first walk of the
dependees edges starting from the direct dependees of the start package.
The fuel passed to the loop exceeds the total number of names that can
ever be enqueued (the start dependees plus every dependees list in the
registry), so the loop always terminates by queue exhaustion or by the
callback returning true. -/
def iterateDependentPackages (pkgs : List Pkg) (start : Pkg)
    (visit : Pkg → Bool) : Bool × List String × List String :=
  let fuel := start.dependees.length +
    (pkgs.map (fun p => p.dependees.length)).sum + pkgs.length + 1
  iterDepAux pkgs visit fuel [] start.dependees

/- ===== Concrete fixtures used by the claim theorems and witnesses ===== -/

/-- Set of keys that the missing-file branch of updateDatabase deletes: the
source files whose entry in file_to_compile_commands carries the given
database file. -/
def dbVictims (db_file : String) : List (String × String) → List String
  | [] => []
  | e :: rest =>
    if e.2 = db_file then e.1 :: dbVictims db_file rest
    else dbVictims db_file rest

/-- Deletion of a list of keys from a map, front to back. -/
def multiDelete {α : Type} : List String → List (String × α) → List (String × α)
  | [], m => m
  | k :: ks, m => multiDelete ks (mapDelete m k)

/-- Two consecutive updateDatabase calls on the same database file with the
same on-disk contents, starting from a fresh workspace; the two reads parse
fresh record objects (generations 0 and 1). -/
def c1SecondUpdate (db_file : String) (contents : List (String × String)) :
    WorkspaceModel × Bool :=
  updateDatabase (updateDatabase emptyWorkspace db_file (some (0, contents))).1
    db_file (some (1, contents))

/-- Workspace holding one projection record owned by the database file
other.json. -/
def c3Workspace : WorkspaceModel :=
  { emptyWorkspace with
    file_to_command :=
      [("/src/a.cpp", { gen := 0, idx := 0, file := "/src/a.cpp", command := "g++ a.cpp" })],
    file_to_compile_commands := [("/src/a.cpp", "other.json")] }

/-- Resolver table returning one list for the compiler g++ and another for
every other compiler path. -/
def cppDefaultsFor (defsG defsC : List String) : String → List String :=
  fun c => if c = "g++" then defsG else defsC

/-- Extracts the outcome of a successful getSourceFileConfiguration call. -/
def outcomeOr (d : SFCOutcome) : Except Unit SFCOutcome → SFCOutcome
  | Except.ok o => o
  | Except.error _ => d

/-- Placeholder outcome for outcomeOr; never reached in the theorems. -/
def blankOutcome : SFCOutcome :=
  { config := { includePath := [], defines := [], compilerPath := "" },
    browse := [], newSystemPathFound := false, defaults := [], recomputed := false }

/-- First query of the memoization scenario: compiler g++ with an empty
defaults cache. -/
def c4FirstQuery : SFCOutcome :=
  outcomeOr blankOutcome
    (getSourceFileConfiguration (cppDefaultsFor ["/gcc/include"] ["/clang/include"])
      noDefaults [] [] [] "g++ a.cpp")

/-- Second query of the memoization scenario: a different compiler while
the cache holds the defaults of the first. -/
def c4SecondQuery : SFCOutcome :=
  outcomeOr blankOutcome
    (getSourceFileConfiguration (cppDefaultsFor ["/gcc/include"] ["/clang/include"])
      noDefaults [] [] c4FirstQuery.defaults "clang++ b.cpp")

/-- Outcome of parsing the command g++ -I/opt/x against workspace /ws with
cached defaults /d. -/
def c8SampleOutcome : SFCOutcome :=
  { config := { includePath := [some "/opt/x", some "/d"], defines := [],
                compilerPath := "g++" },
    browse := [some "/opt/x"], newSystemPathFound := true,
    defaults := ["/d"], recomputed := false }

/-- Dependency fixture: package A with dependees B and D, package B with
dependee C. -/
def pkgA : Pkg := { name := "A", dependees := ["B", "D"] }

def pkgB : Pkg := { name := "B", dependees := ["C"] }

def pkgC : Pkg := { name := "C", dependees := [] }

def pkgD : Pkg := { name := "D", dependees := [] }

def depGraphABCD : List Pkg := [pkgA, pkgB, pkgC, pkgD]

/-- Visit callback returning a fixed answer per package name of the
fixture, false elsewhere. -/
def visitBCD (vB vC vD : Bool) : Pkg → Bool :=
  fun p =>
    if p.name = "B" then vB
    else if p.name = "C" then vC
    else if p.name = "D" then vD
    else false

/-- Fixture with a dependee name that resolves to no package. -/
def pkgAGhost : Pkg := { name := "A", dependees := ["ghost", "B", "ghost"] }

def pkgBLeaf : Pkg := { name := "B", dependees := [] }

def depGraphGhost : List Pkg := [pkgAGhost, pkgBLeaf]

/- ===== Claim theorems ===== -/

/-- Claim C2, demonstration of the defect: for the exact basename nvcc the
dispatch of parseCompilerDefaults runs the GPU resolver and then also the
generic resolver, because line 345 opens a new if statement instead of an
else-if, so the claim that every compiler path triggers exactly one
strategy fails; the resulting defaults are the concatenation of both
resolver outputs. -/
theorem c2_nvcc_runs_two_resolvers :
    ∀ cppD nvccD : String → List String,
      classifyStrategies "nvcc" = [ResolverStrategy.gpu, ResolverStrategy.generic] ∧
      parseCompilerDefaults cppD nvccD "nvcc" [] = nvccD "nvcc" ++ cppD "nvcc" := by
  intro cppD nvccD
  exact ⟨rfl, rfl⟩

/-- Claim C7: resolving defaults for the caching wrapper ccache with
remaining arguments g++ and -std=c++17 yields exactly the defaults of
resolving g++ with -std=c++17, and resolving ccache with no remaining
arguments yields the empty list. -/
theorem c7_ccache_unwrapping :
    ∀ cppD nvccD : String → List String,
      parseCompilerDefaults cppD nvccD "ccache" ["g++", "-std=c++17"] =
        parseCompilerDefaults cppD nvccD "g++" ["-std=c++17"] ∧
      parseCompilerDefaults cppD nvccD "ccache" [] = [] := by
  intro cppD nvccD
  exact ⟨rfl, rfl⟩

/-- Claim C9, counterexample: after the ignore choice, a completed reload
(which clears every cache collection) leaves ignore_missing_db set, so a
subsequent scan that finds no database still shows no prompt, contradicting
the part of the claim that a full reload lifts the suppression. -/
theorem c9_counterexample :
    (reloadClearCaches (applyIgnoreChoice emptyWorkspace)).ignore_missing_db = true ∧
    missingDbPromptShown (reloadClearCaches (applyIgnoreChoice emptyWorkspace)) false = false :=
  ⟨rfl, rfl⟩

/-- Claim C9 as amended: after the ignore choice no missing-database prompt
is shown by any subsequent scan, and a full reload does not reset the flag,
so the suppression lasts for the lifetime of the workspace instance. -/
theorem c9_amended :
    ∀ (st : WorkspaceModel) (db_found : Bool),
      missingDbPromptShown (applyIgnoreChoice st) db_found = false ∧
      (reloadClearCaches (applyIgnoreChoice st)).ignore_missing_db = true ∧
      missingDbPromptShown (reloadClearCaches (applyIgnoreChoice st)) db_found = false := by
  intro st b
  refine ⟨?_, rfl, ?_⟩ <;>
    simp [missingDbPromptShown, applyIgnoreChoice, reloadClearCaches]

/-- Claim C6: on the fixture with dependee edges A to B, B to C and A to D,
the traversal from A visits B, D, C in breadth-first order, each exactly
once, stops and returns true at the first callback returning true, and
returns false when the queue is exhausted; a dependee name that resolves to
no package is skipped silently while still entering the seen-set. -/
theorem c6_transitive_dependees :
    (∀ vB vC vD : Bool,
      iterateDependentPackages depGraphABCD pkgA (visitBCD vB vC vD) =
        if vB then (true, ["B"], ["B"])
        else if vD then (true, ["B", "D"], ["D", "B"])
        else if vC then (true, ["B", "D", "C"], ["C", "D", "B"])
        else (false, ["B", "D", "C"], ["C", "D", "B"])) ∧
    iterateDependentPackages depGraphGhost pkgAGhost (fun _ => false) =
      (false, ["B"], ["B", "ghost"]) := by
  constructor
  · decide
  · rfl

/-- Claim C5, counterexample: with cached default path /opt/toolchain/include
(a non-workspace path not already recorded), parsing the end-to-end record
appends the default to includePath but does not add it to
system_include_browse_paths, which keeps exactly /usr/include; the claim
that non-workspace default paths also end up in systemIncludePaths fails. -/
theorem c5_counterexample :
    getSourceFileConfiguration noDefaults noDefaults ["/ws"] [] ["/opt/toolchain/include"]
      "/usr/bin/g++ -I/ws/src/a/include -isystem /usr/include -DDEBUG=1 a.cpp" =
    Except.ok
      { config :=
          { includePath := [some "/ws/src/a/include", some "/usr/include",
                            some "/opt/toolchain/include"],
            defines := ["DEBUG=1"],
            compilerPath := "/usr/bin/g++" },
        browse := [some "/usr/include"],
        newSystemPathFound := true,
        defaults := ["/opt/toolchain/include"],
        recomputed := false } := rfl

/-- Claim C5 as amended: for the end-to-end record in a workspace rooted at
/ws, includePath is the two explicit paths followed by every appended
default, defines is DEBUG=1, and systemIncludePaths receives only the
explicit non-workspace path /usr/include; appended defaults are never added
to systemIncludePaths. -/
theorem c5_amended :
    ∀ ds : List String,
      getSourceFileConfiguration noDefaults noDefaults ["/ws"] [] ds
        "/usr/bin/g++ -I/ws/src/a/include -isystem /usr/include -DDEBUG=1 a.cpp" =
      Except.ok
        { config :=
            { includePath :=
                [some "/ws/src/a/include", some "/usr/include"] ++ ds.map some,
              defines := ["DEBUG=1"],
              compilerPath := "/usr/bin/g++" },
          browse := [some "/usr/include"],
          newSystemPathFound := true,
          defaults := ds,
          recomputed := ds.isEmpty } := by
  intro ds
  cases ds <;> rfl

/-- Claim C10, counterexample: the command g++ -isystem -isystem has
-isystem as the last whitespace-separated token, yet no out-of-range read
happens and no undefined value is appended: the final token is consumed as
the path argument of the preceding -isystem and the parse returns a
configuration whose includePath holds only defined strings. -/
theorem c10_counterexample :
    getSourceFileConfiguration noDefaults noDefaults ["/ws"] [] ["/d"]
      "g++ -isystem -isystem" =
    Except.ok
      { config := { includePath := [some "-isystem", some "/d"], defines := [],
                    compilerPath := "g++" },
        browse := [some "-isystem"], newSystemPathFound := true,
        defaults := ["/d"], recomputed := false } := rfl

/-- Claim C10 as amended: when the scanner reaches a final -isystem token
with no token after it, it reads one past the end of the token list and
appends the undefined result to includePath; with zero workspace folders
the undefined entry appears in the returned includePath (and in
system_include_browse_paths), while with a workspace folder configured the
workspace test on undefined throws, so the branch is total only when a
path token follows or no workspace folder exists. -/
theorem c10_amended :
    ∀ ds : List String,
      getSourceFileConfiguration noDefaults noDefaults [] [] ds "g++ -isystem" =
        Except.ok
          { config := { includePath := none :: ds.map some, defines := [],
                        compilerPath := "g++" },
            browse := [none], newSystemPathFound := true,
            defaults := ds, recomputed := ds.isEmpty } ∧
      getSourceFileConfiguration noDefaults noDefaults ["/ws"] [] ds "g++ -isystem" =
        Except.error () := by
  intro ds
  cases ds <;> exact ⟨rfl, rfl⟩

/-- Claim C4, counterexample: after the defaults for g++ are cached, a
query for the different compiler clang++ does not recompute; line 239
gates recomputation only on the cached list being empty, so the second
query reuses the g++ defaults instead of the clang++ defaults. -/
theorem c4_counterexample :
    c4SecondQuery.recomputed = false ∧
    c4SecondQuery.defaults = ["/gcc/include"] :=
  ⟨rfl, rfl⟩

/-- Claim C4 as amended: compiler defaults are memoized in one global list
shared by all compilers; a recompute happens exactly when the cached list
is empty at query time, so after one compiler produces a nonempty cached
list a query for a second, different compiler does not recompute and
reuses the first result, and only clearing the list (as a full reload
does) makes the next query recompute. -/
theorem c4_amended :
    ∀ (defsG defsC : List String) (st : WorkspaceModel), defsG ≠ [] →
      (outcomeOr blankOutcome (getSourceFileConfiguration (cppDefaultsFor defsG defsC)
        noDefaults [] [] [] "g++ a.cpp")).recomputed = true ∧
      (outcomeOr blankOutcome (getSourceFileConfiguration (cppDefaultsFor defsG defsC)
        noDefaults [] [] [] "g++ a.cpp")).defaults = defsG ∧
      (outcomeOr blankOutcome (getSourceFileConfiguration (cppDefaultsFor defsG defsC)
        noDefaults [] [] defsG "clang++ b.cpp")).recomputed = false ∧
      (outcomeOr blankOutcome (getSourceFileConfiguration (cppDefaultsFor defsG defsC)
        noDefaults [] [] defsG "clang++ b.cpp")).defaults = defsG ∧
      (outcomeOr blankOutcome (getSourceFileConfiguration (cppDefaultsFor defsG defsC)
        noDefaults [] [] (reloadClearCaches st).default_system_include_paths
        "clang++ b.cpp")).recomputed = true ∧
      (outcomeOr blankOutcome (getSourceFileConfiguration (cppDefaultsFor defsG defsC)
        noDefaults [] [] (reloadClearCaches st).default_system_include_paths
        "clang++ b.cpp")).defaults = defsC := by
  intro defsG defsC st h
  match defsG, h with
  | a :: l, _ => exact ⟨rfl, rfl, rfl, rfl, rfl, rfl⟩

/-- Witness for the amended claim C4 at concrete inputs. -/
theorem c4_amended_witness :
    (["/x"] : List String) ≠ [] ∧
    (outcomeOr blankOutcome (getSourceFileConfiguration (cppDefaultsFor ["/x"] ["/y"])
      noDefaults [] [] ["/x"] "clang++ b.cpp")).recomputed = false :=
  ⟨by decide, (c4_amended ["/x"] ["/y"] emptyWorkspace (by decide)).2.2.1⟩

/-- Claim C1, counterexample: a database holding one record, processed
twice with unchanged contents from a fresh workspace, yields changed equal
true on the second call as well, and the build-commands signal is
dispatched on both calls, because line 435 compares the stored record with
the freshly parsed one by object identity. -/
theorem c1_counterexample :
    (c1SecondUpdate "/bld/pkg/compile_commands.json" [("/src/a.cpp", "g++ a.cpp")]).2 = true ∧
    (c1SecondUpdate "/bld/pkg/compile_commands.json" [("/src/a.cpp", "g++ a.cpp")]).1.signals = 2 :=
  ⟨rfl, rfl⟩

/- Helper lemmas about the record-merge pass, used for the amended claim C1. -/

theorem mergeRecs_change_true (db_file : String) :
    ∀ (recs : List JSRec) (st : WorkspaceModel),
      (mergeRecs db_file recs st true).2 = true := by
  intro recs
  induction recs with
  | nil => intro st; rfl
  | cons cmd rest ih =>
    intro st
    simp only [mergeRecs]
    split
    · exact ih st
    · exact ih _

theorem mergeRecs_head_changed (db_file : String) (cmd : JSRec) (rs : List JSRec)
    (st : WorkspaceModel) (h : mapGet st.file_to_command cmd.file ≠ some cmd) :
    (mergeRecs db_file (cmd :: rs) st false).2 = true := by
  simp only [mergeRecs]
  rw [if_neg h]
  exact mergeRecs_change_true db_file rs _

theorem mergeRecs_signals (db_file : String) :
    ∀ (recs : List JSRec) (st : WorkspaceModel) (change : Bool),
      (mergeRecs db_file recs st change).1.signals = st.signals := by
  intro recs
  induction recs with
  | nil => intro st ch; rfl
  | cons cmd rest ih =>
    intro st ch
    simp only [mergeRecs]
    split
    · exact ih st ch
    · exact ih _ true

theorem mem_mapSet {α : Type} (k : String) (v : α) :
    ∀ (m : List (String × α)), ∀ e ∈ mapSet m k v, e ∈ m ∨ e = (k, v) := by
  intro m
  induction m with
  | nil =>
    intro e he
    simp only [mapSet, List.mem_singleton] at he
    exact Or.inr he
  | cons x rest ih =>
    intro e he
    simp only [mapSet] at he
    split at he
    · rcases List.mem_cons.mp he with h | h
      · exact Or.inr h
      · exact Or.inl (List.mem_cons_of_mem x h)
    · rcases List.mem_cons.mp he with h | h
      · exact Or.inl (h ▸ List.mem_cons_self x rest)
      · rcases ih e h with h2 | h2
        · exact Or.inl (List.mem_cons_of_mem x h2)
        · exact Or.inr h2

theorem mapGet_mem {α : Type} (k : String) (v : α) :
    ∀ (m : List (String × α)), mapGet m k = some v → (k, v) ∈ m := by
  intro m
  induction m with
  | nil => intro h; simp [mapGet] at h
  | cons e rest ih =>
    intro h
    simp only [mapGet] at h
    split at h
    · rename_i heq
      injection h with h2
      have : e = (k, v) := by
        cases e
        simp only at heq h2
        rw [heq, h2]
      exact this ▸ List.mem_cons_self e rest
    · exact List.mem_cons_of_mem e (ih h)

theorem readFileRecsFrom_gen (g : Nat) :
    ∀ (contents : List (String × String)) (i : Nat),
      ∀ r ∈ readFileRecsFrom g i contents, r.gen = g := by
  intro contents
  induction contents with
  | nil => intro i r hr; simp [readFileRecsFrom] at hr
  | cons e rest ih =>
    intro i r hr
    rcases List.mem_cons.mp hr with h | h
    · rw [h]
    · exact ih (i + 1) r h

theorem mergeRecs_gen (db_file : String) (g : Nat) :
    ∀ (recs : List JSRec) (st : WorkspaceModel) (change : Bool),
      (∀ e ∈ st.file_to_command, (Prod.snd e).gen = g) →
      (∀ r ∈ recs, r.gen = g) →
      ∀ e ∈ (mergeRecs db_file recs st change).1.file_to_command, (Prod.snd e).gen = g := by
  intro recs
  induction recs with
  | nil => intro st ch hst _ e he; exact hst e he
  | cons cmd rest ih =>
    intro st ch hst hrecs e he
    simp only [mergeRecs] at he
    split at he
    · exact ih st ch hst (fun r hr => hrecs r (List.mem_cons_of_mem _ hr)) e he
    · refine ih _ true ?_ (fun r hr => hrecs r (List.mem_cons_of_mem _ hr)) e he
      intro x hx
      rcases mem_mapSet cmd.file cmd st.file_to_command x hx with h | h
      · exact hst x h
      · rw [h]
        exact hrecs cmd (List.mem_cons_self _ _)

theorem updateDatabase_changed_parts (st : WorkspaceModel) (db_file : String)
    (gen : Nat) (f c : String) (rest : List (String × String))
    (h : mapGet st.file_to_command f ≠
      some { gen := gen, idx := 0, file := f, command := c }) :
    (updateDatabase st db_file (some (gen, (f, c) :: rest))).2 = true ∧
    (updateDatabase st db_file (some (gen, (f, c) :: rest))).1.signals = st.signals + 1 ∧
    (updateDatabase st db_file (some (gen, (f, c) :: rest))).1.file_to_command =
      (mergeRecs db_file (readFileRecs gen ((f, c) :: rest))
        { st with compile_commands :=
            mapSet st.compile_commands db_file (readFileRecs gen ((f, c) :: rest)) }
        false).1.file_to_command := by
  have hchange :
      (mergeRecs db_file (readFileRecs gen ((f, c) :: rest))
        { st with compile_commands :=
            mapSet st.compile_commands db_file (readFileRecs gen ((f, c) :: rest)) }
        false).2 = true := by
    apply mergeRecs_head_changed
    exact h
  refine ⟨?_, ?_, ?_⟩
  · simp only [updateDatabase]
    exact hchange
  · simp only [updateDatabase]
    rw [if_pos hchange]
    show (mergeRecs db_file (readFileRecs gen ((f, c) :: rest))
        { st with compile_commands :=
            mapSet st.compile_commands db_file (readFileRecs gen ((f, c) :: rest)) }
        false).1.signals + 1 = st.signals + 1
    rw [mergeRecs_signals]
  · simp only [updateDatabase]
    rw [if_pos hchange]

/-- Claim C1, as amended: re-processing an unchanged database file detects
zero changes only when the database holds zero records; for a database
with at least one record, both the first and the second updateDatabase
call return changed equal true and both dispatch the build-commands
signal, because line 435 compares by object identity and every read parses
fresh record objects. -/
theorem c1_amended (db_file f c : String) (rest : List (String × String)) :
    (updateDatabase emptyWorkspace db_file (some (0, (f, c) :: rest))).2 = true ∧
    (c1SecondUpdate db_file ((f, c) :: rest)).2 = true ∧
    (c1SecondUpdate db_file ((f, c) :: rest)).1.signals = 2 := by
  have h0 : mapGet emptyWorkspace.file_to_command f ≠
      some { gen := 0, idx := 0, file := f, command := c } := by
    simp [emptyWorkspace, mapGet]
  obtain ⟨hb1, hs1, hftc1⟩ := updateDatabase_changed_parts emptyWorkspace db_file 0 f c rest h0
  have hgen1 : ∀ e ∈ (updateDatabase emptyWorkspace db_file
      (some (0, (f, c) :: rest))).1.file_to_command, (Prod.snd e).gen = 0 := by
    rw [hftc1]
    exact mergeRecs_gen db_file 0 _ _ false
      (by intro e he; simp [emptyWorkspace] at he)
      (readFileRecsFrom_gen 0 _ 0)
  have h1 : mapGet (updateDatabase emptyWorkspace db_file
      (some (0, (f, c) :: rest))).1.file_to_command f ≠
      some { gen := 1, idx := 0, file := f, command := c } := by
    intro hcontra
    have hmem := mapGet_mem f _ _ hcontra
    have := hgen1 _ hmem
    simp at this
  obtain ⟨hb2, hs2, _⟩ := updateDatabase_changed_parts _ db_file 1 f c rest h1
  refine ⟨hb1, hb2, ?_⟩
  show (updateDatabase (updateDatabase emptyWorkspace db_file
      (some (0, (f, c) :: rest))).1 db_file (some (1, (f, c) :: rest))).1.signals = 2
  rw [hs2, hs1]
  rfl

/- Helper lemmas about the missing-file branch, used for claim C3. -/

theorem removeDbRecords_eq (db_file : String) :
    ∀ (entries : List (String × String)) (st : WorkspaceModel),
      removeDbRecords db_file entries st =
        { st with
          file_to_command :=
            multiDelete (dbVictims db_file entries) st.file_to_command,
          file_to_compile_commands :=
            multiDelete (dbVictims db_file entries) st.file_to_compile_commands } := by
  intro entries
  induction entries with
  | nil => intro st; rfl
  | cons e rest ih =>
    intro st
    simp only [removeDbRecords, dbVictims]
    split
    · rw [ih]
      rfl
    · rw [ih]

theorem mapGet_mapDelete {α : Type} (k f : String) :
    ∀ (m : List (String × α)),
      mapGet (mapDelete m k) f = if f = k then none else mapGet m f := by
  intro m
  induction m with
  | nil => simp only [mapDelete, mapGet]; split <;> rfl
  | cons e rest ih =>
    simp only [mapDelete]
    by_cases h1 : e.1 = k
    · rw [if_pos h1, ih]
      by_cases h2 : f = k
      · rw [if_pos h2, if_pos h2]
      · rw [if_neg h2, if_neg h2]
        simp only [mapGet]
        have : ¬ e.1 = f := by
          intro hc
          exact h2 (by rw [← hc, h1])
        rw [if_neg this]
    · rw [if_neg h1]
      simp only [mapGet]
      by_cases h3 : e.1 = f
      · rw [if_pos h3, if_pos h3]
        have : ¬ f = k := by
          intro hc
          exact h1 (by rw [h3, hc])
        rw [if_neg this]
      · rw [if_neg h3, if_neg h3, ih]

theorem mapGet_multiDelete {α : Type} (f : String) :
    ∀ (ks : List String) (m : List (String × α)),
      mapGet (multiDelete ks m) f = if f ∈ ks then none else mapGet m f := by
  intro ks
  induction ks with
  | nil => intro m; simp [multiDelete]
  | cons k rest ih =>
    intro m
    simp only [multiDelete]
    rw [ih, mapGet_mapDelete]
    by_cases h1 : f ∈ rest
    · simp [h1]
    · by_cases h2 : f = k <;> simp [h1, h2]

theorem mem_dbVictims_of_mapGet (db_file f : String) :
    ∀ entries, mapGet entries f = some db_file → f ∈ dbVictims db_file entries := by
  intro entries
  induction entries with
  | nil => intro h; simp [mapGet] at h
  | cons e rest ih =>
    intro h
    simp only [mapGet] at h
    simp only [dbVictims]
    by_cases h1 : e.1 = f
    · rw [if_pos h1] at h
      injection h with h2
      rw [if_pos h2, ← h1]
      exact List.mem_cons_self _ _
    · rw [if_neg h1] at h
      split
      · exact List.mem_cons_of_mem _ (ih h)
      · exact ih h

theorem dbVictims_subset_keys (db_file : String) :
    ∀ entries, ∀ f ∈ dbVictims db_file entries, f ∈ entries.map Prod.fst := by
  intro entries
  induction entries with
  | nil => intro f hf; simp [dbVictims] at hf
  | cons e rest ih =>
    intro f hf
    simp only [dbVictims] at hf
    simp only [List.map_cons]
    split at hf
    · rcases List.mem_cons.mp hf with h | h
      · exact h ▸ List.mem_cons_self _ _
      · exact List.mem_cons_of_mem _ (ih f h)
    · exact List.mem_cons_of_mem _ (ih f hf)

theorem mapGet_of_mem_dbVictims (db_file f : String) :
    ∀ entries, (entries.map Prod.fst).Nodup → f ∈ dbVictims db_file entries →
      mapGet entries f = some db_file := by
  intro entries
  induction entries with
  | nil => intro _ h; simp [dbVictims] at h
  | cons e rest ih =>
    intro hnd h
    have hnd1 := List.nodup_cons.mp
      (show (e.1 :: rest.map Prod.fst).Nodup from hnd)
    simp only [dbVictims] at h
    simp only [mapGet]
    by_cases h2 : e.2 = db_file
    · rw [if_pos h2] at h
      rcases List.mem_cons.mp h with h3 | h3
      · rw [if_pos h3.symm, h2]
      · have hf : f ∈ rest.map Prod.fst := dbVictims_subset_keys db_file rest f h3
        have hne : ¬ e.1 = f := fun heq => hnd1.1 (by rw [heq]; exact hf)
        rw [if_neg hne]
        exact ih hnd1.2 h3
    · rw [if_neg h2] at h
      have hf : f ∈ rest.map Prod.fst := dbVictims_subset_keys db_file rest f h
      have hne : ¬ e.1 = f := fun heq => hnd1.1 (by rw [heq]; exact hf)
      rw [if_neg hne]
      exact ih hnd1.2 h

/-- Claim C3, counterexample: calling updateDatabase for a vanished file
that owns no projection record still dispatches the build-commands signal
(line 425 dispatches unconditionally), contradicting the part of the claim
that the signal fires only if at least one record was removed; the
projection, owned by other.json, is untouched and the call returns true. -/
theorem c3_counterexample :
    (updateDatabase c3Workspace "gone.json" none).1.signals = 1 ∧
    (updateDatabase c3Workspace "gone.json" none).1.file_to_command =
      c3Workspace.file_to_command ∧
    (updateDatabase c3Workspace "gone.json" none).2 = true :=
  ⟨rfl, rfl, rfl⟩

/-- Claim C3, as amended: when updateDatabase is called for a file that no
longer exists, it removes exactly the projection records whose recorded
origin equals that file path (a record owned by a different database file
is never removed), dispatches the build-commands signal unconditionally,
whether or not anything was removed, and returns true. -/
theorem c3_amended (st : WorkspaceModel) (db_file f : String)
    (hnd : (st.file_to_compile_commands.map Prod.fst).Nodup) :
    (updateDatabase st db_file none).2 = true ∧
    (updateDatabase st db_file none).1.signals = st.signals + 1 ∧
    (mapGet st.file_to_compile_commands f = some db_file →
      mapGet (updateDatabase st db_file none).1.file_to_command f = none ∧
      mapGet (updateDatabase st db_file none).1.file_to_compile_commands f = none) ∧
    (mapGet st.file_to_compile_commands f ≠ some db_file →
      mapGet (updateDatabase st db_file none).1.file_to_command f =
        mapGet st.file_to_command f ∧
      mapGet (updateDatabase st db_file none).1.file_to_compile_commands f =
        mapGet st.file_to_compile_commands f) := by
  have hrw : updateDatabase st db_file none =
      ({ removeDbRecords db_file st.file_to_compile_commands st with
          signals := (removeDbRecords db_file st.file_to_compile_commands st).signals + 1 },
        true) := rfl
  rw [hrw, removeDbRecords_eq]
  refine ⟨rfl, rfl, ?_, ?_⟩
  · intro hmem
    have hv : f ∈ dbVictims db_file st.file_to_compile_commands :=
      mem_dbVictims_of_mapGet db_file f _ hmem
    constructor
    · show mapGet (multiDelete (dbVictims db_file st.file_to_compile_commands)
        st.file_to_command) f = none
      rw [mapGet_multiDelete, if_pos hv]
    · show mapGet (multiDelete (dbVictims db_file st.file_to_compile_commands)
        st.file_to_compile_commands) f = none
      rw [mapGet_multiDelete, if_pos hv]
  · intro hne
    have hv : f ∉ dbVictims db_file st.file_to_compile_commands := by
      intro hc
      exact hne (mapGet_of_mem_dbVictims db_file f _ hnd hc)
    constructor
    · show mapGet (multiDelete (dbVictims db_file st.file_to_compile_commands)
        st.file_to_command) f = mapGet st.file_to_command f
      rw [mapGet_multiDelete, if_neg hv]
    · show mapGet (multiDelete (dbVictims db_file st.file_to_compile_commands)
        st.file_to_compile_commands) f = mapGet st.file_to_compile_commands f
      rw [mapGet_multiDelete, if_neg hv]

/-- Witness for the amended claim C3 at a concrete workspace: the database
file gone.json owns no record, so the single record owned by other.json
survives, the signal still fires once and the call returns true. -/
theorem c3_amended_witness :
    ((c3Workspace.file_to_compile_commands.map Prod.fst).Nodup ∧
      mapGet c3Workspace.file_to_compile_commands "/src/a.cpp" ≠ some "gone.json") ∧
    (updateDatabase c3Workspace "gone.json" none).2 = true ∧
    (updateDatabase c3Workspace "gone.json" none).1.signals = c3Workspace.signals + 1 ∧
    mapGet (updateDatabase c3Workspace "gone.json" none).1.file_to_command "/src/a.cpp" =
      mapGet c3Workspace.file_to_command "/src/a.cpp" :=
  ⟨⟨by decide, by decide⟩,
    (c3_amended c3Workspace "gone.json" "/src/a.cpp" (by decide)).1,
    (c3_amended c3Workspace "gone.json" "/src/a.cpp" (by decide)).2.1,
    ((c3_amended c3Workspace "gone.json" "/src/a.cpp" (by decide)).2.2.2 (by decide)).1⟩

/- Helper lemmas about the option scanner, used for claim C8. -/

theorem addIncludePath_ok (roots : List String) (st : ParseState) (p : JSStr)
    (st1 : ParseState) (h : addIncludePath roots st p = Except.ok st1) :
    st1.includePaths = st.includePaths ++ [p] ∧
    (st1.browse = st.browse ∨ st1.browse = st.browse ++ [p]) := by
  unfold addIncludePath at h
  split at h
  · cases h
  · split at h
    · split at h
      · injection h with h2
        subst h2
        exact ⟨rfl, Or.inl rfl⟩
      · injection h with h2
        subst h2
        exact ⟨rfl, Or.inr rfl⟩
    · injection h with h2
      subst h2
      exact ⟨rfl, Or.inl rfl⟩

theorem scanStep_facts (roots : List String) (st st1 st2 : ParseState) (p : JSStr)
    (heq : addIncludePath roots st p = Except.ok st1)
    (ihmono : ∀ x ∈ st1.includePaths, x ∈ st2.includePaths)
    (ihbrowse : ∀ q ∈ st2.browse, q ∈ st1.browse ∨ q ∈ st2.includePaths) :
    (∀ x ∈ st.includePaths, x ∈ st2.includePaths) ∧
    (∀ q ∈ st2.browse, q ∈ st.browse ∨ q ∈ st2.includePaths) := by
  obtain ⟨hinc, hbr⟩ := addIncludePath_ok roots st p st1 heq
  constructor
  · intro x hx
    apply ihmono
    rw [hinc]
    exact List.mem_append_left _ hx
  · intro q hq
    rcases ihbrowse q hq with h2 | h2
    · rcases hbr with h3 | h3
      · rw [h3] at h2
        exact Or.inl h2
      · rw [h3] at h2
        rcases List.mem_append.mp h2 with h4 | h4
        · exact Or.inl h4
        · refine Or.inr (ihmono q ?_)
          rw [hinc]
          exact List.mem_append_right _ h4
    · exact Or.inr h2

theorem scanArgs_facts (roots : List String) :
    ∀ (args : List String) (st st2 : ParseState),
      scanArgs roots args st = Except.ok st2 →
      (∀ x ∈ st.includePaths, x ∈ st2.includePaths) ∧
      (∀ q ∈ st2.browse, q ∈ st.browse ∨ q ∈ st2.includePaths) := by
  intro args st
  induction args, st using scanArgs.induct roots with
  | case1 st =>
    intro st2 h
    injection h with h2
    subst h2
    exact ⟨fun x hx => hx, fun q hq => Or.inl hq⟩
  | case2 opt rest st h1 ih =>
    intro st2 h
    rw [scanArgs.eq_def] at h
    cases haip : addIncludePath roots st (some (strDrop opt 2)) with
    | error e => simp [haip, h1, Except.bind] at h
    | ok st1 =>
      simp only [haip, h1, if_true, Except.bind] at h
      exact scanStep_facts roots st st1 st2 _ haip (ih st1 st2 h).1 (ih st1 st2 h).2
  | case3 st h1 ih =>
    intro st2 h
    rw [scanArgs.eq_def] at h
    cases haip : addIncludePath roots st none with
    | error e => simp [haip, h1, Except.bind] at h
    | ok st1 =>
      simp only [haip, Except.bind] at h
      simp at h
      exact scanStep_facts roots st st1 st2 _ haip (ih st1 st2 h).1 (ih st1 st2 h).2
  | case4 st head tail h1 ih =>
    intro st2 h
    rw [scanArgs.eq_def] at h
    cases haip : addIncludePath roots st (some head) with
    | error e => simp [haip, h1, Except.bind] at h
    | ok st1 =>
      simp only [haip, Except.bind] at h
      simp at h
      exact scanStep_facts roots st st1 st2 _ haip (ih st1 st2 h).1 (ih st1 st2 h).2
  | case5 opt rest st h1 h2 h3 ih =>
    intro st2 h
    rw [scanArgs.eq_def] at h
    cases haip : addIncludePath roots st (some (strDrop opt 9)) with
    | error e => simp [haip, h1, h2, h3, Except.bind] at h
    | ok st1 =>
      simp only [haip, h1, h2, h3, if_true, Except.bind] at h
      simp [h1, h2, h3] at h
      exact scanStep_facts roots st st1 st2 _ haip (ih st1 st2 h).1 (ih st1 st2 h).2
  | case6 opt rest st h1 h2 h3 h4 ih =>
    intro st2 h
    rw [scanArgs.eq_def] at h
    simp [h1, h2, h3, h4] at h
    exact ih st2 h
  | case7 opt rest st h1 h2 h3 h4 ih =>
    intro st2 h
    rw [scanArgs.eq_def] at h
    simp [h1, h2, h3, h4] at h
    exact ih st2 h

/-- Claim C8: for every successful parse of a compile record starting from
an empty system_include_browse_paths set, every path recorded in the
system-include set by that parse is also present in the includePath
sequence returned for that record, so systemIncludePaths is a subset of
includePaths. -/
theorem c8_system_paths_subset (cppD nvccD : String → List String)
    (roots : List String) (defaults0 : List String) (command : String)
    (out : SFCOutcome)
    (h : getSourceFileConfiguration cppD nvccD roots [] defaults0 command =
      Except.ok out) :
    ∀ p, p ∈ out.browse → p ∈ out.config.includePath := by
  simp only [getSourceFileConfiguration] at h
  split at h
  · exact Except.noConfusion h
  · rename_i stf hsc
    injection h with h2
    subst h2
    intro p hp
    have hfacts := scanArgs_facts roots _ _ stf hsc
    rcases hfacts.2 p hp with h3 | h3
    · simp at h3
    · exact List.mem_append_left _ h3

/-- Witness for claim C8 at a concrete record: parsing g++ -I/opt/x in
workspace /ws with cached default /d records /opt/x as a system include
path, and that path is present in the returned includePath. -/
theorem c8_system_paths_subset_witness :
    some "/opt/x" ∈ c8SampleOutcome.browse ∧
    some "/opt/x" ∈ c8SampleOutcome.config.includePath :=
  ⟨by decide,
    c8_system_paths_subset noDefaults noDefaults ["/ws"] ["/d"] "g++ -I/opt/x"
      c8SampleOutcome rfl (some "/opt/x") (by decide)⟩
